import Mathlib

/-!
Verification of the QR-attendance backend (`src/app.py`, Flask + SQLite).

The three SQLite tables (`users`, `sessions`, `attendance`) are embedded as
lists of rows; each HTTP endpoint becomes a Lean function from the database
state and the request inputs to a response together with the new state.
SQLite `REAL` timestamps are modelled as `Int` (no claim depends on
fractional seconds); `jsonify` dictionaries whose values are strings are
modelled as association lists `List (String × String)`; the two endpoints
whose payloads carry numbers (`/admin/attendance`, `/student/stats`) get
structured output types.  Values generated by the environment
(`uuid.uuid4()`, `time.time()`, the password hash) are passed in as
parameters.  `datetime.strptime(s, '%Y-%m-%d')` is standard-library code,
modelled abstractly by its outcome: `none` when the field is absent/falsy,
`some .invalid` when the string is present but raises `ValueError`, and
`some (.ok _)` carrying the timestamps the Python code derives on success.
-/

/-- A row of the `users` table.  `class_id` is declared nullable in the
schema but every INSERT in `app.py` supplies it (the /register handler
requires it to be truthy), so it is modelled as `String`. -/
structure UserRow where
  id : String
  name : String
  username : String
  password : String
  role : String
  rollno : Option String
  class_id : String
  semester : Option String
deriving DecidableEq, Repr

/-- A row of the `sessions` table (`qr_token` is the primary key). -/
structure SessionRow where
  qr_token : String
  class_name : String
  class_code : String
  timestamp : Int
  class_id : String
deriving DecidableEq, Repr

/-- A row of the `attendance` table (`id` is AUTOINCREMENT). -/
structure AttendanceRow where
  id : Nat
  student_id : String
  qr_token : String
  status : String
  timestamp : Int
deriving DecidableEq, Repr

/-- The whole database.  `nextId` models the AUTOINCREMENT counter of the
`attendance` table (SQLite never reuses an AUTOINCREMENT id). -/
structure DBState where
  users : List UserRow
  sessions : List SessionRow
  attendance : List AttendanceRow
  nextId : Nat
deriving DecidableEq, Repr

def dbEmpty : DBState := ⟨[], [], [], 1⟩

/-- An HTTP response: status code plus the `jsonify` body, for the
endpoints whose body fields are all strings. -/
structure Resp where
  code : Nat
  body : List (String × String)
deriving DecidableEq, Repr

/-- Python truthiness of `data.get(k)` for a string field: `None` and the
empty string are falsy. -/
def truthy : Option String → Bool
  | none => false
  | some s => !(s == "")

/-- Outcome of `datetime.strptime(s, '%Y-%m-%d')` on a present field:
either a `ValueError` or a successfully derived value. -/
inductive ParseOutcome (α : Type) where
  | invalid
  | ok (a : α)
deriving DecidableEq, Repr

/-- SQL `SELECT COUNT(qr_token) FROM sessions WHERE class_id = ?` (the column
is NOT NULL, so COUNT(qr_token) is the row count of the filter). -/
def sqlCountSessions (sessions : List SessionRow) (cid : String) : Nat :=
  (sessions.filter (fun s => s.class_id == cid)).length

/-- SQL `SELECT COUNT(T1.id) FROM attendance T1 JOIN sessions s ON
T1.qr_token = s.qr_token WHERE <P on T1> AND <Q on s>`: the length of the
join, with the attendance-side conjuncts of the WHERE clause in `P` and
the session-side conjuncts in `Q`. -/
def sqlJoinCount (att : List AttendanceRow) (sess : List SessionRow)
    (P : AttendanceRow → Bool) (Q : SessionRow → Bool) : Nat :=
  (att.flatMap (fun a =>
    sess.filter (fun s => a.qr_token == s.qr_token && P a && Q s))).length

/-- Python `round(x, 1)`: round to one decimal, ties to even (floats are
modelled as exact rationals). -/
def roundHalfEven (q : ℚ) : ℤ :=
  let n := ⌊q⌋
  let r := q - n
  if r < 1/2 then n
  else if 1/2 < r then n + 1
  else if n % 2 = 0 then n else n + 1

def pyRound1 (q : ℚ) : ℚ := (roundHalfEven (q * 10) : ℚ) / 10

/-- ASCII whitespace, for Python `s.strip()`. -/
def pyWhitespace (c : Char) : Bool := c == ' ' || c == '\t' || c == '\n' || c == '\r'

/-- Python `s.strip()` (used only to state the normalization the spec
asks about; `app.py` itself never strips). -/
def pyStrip (s : String) : String :=
  ⟨((s.data.dropWhile pyWhitespace).reverse.dropWhile pyWhitespace).reverse⟩

/-- Python `s.upper()` for ASCII tokens (used only to state the
normalization the spec asks about; `app.py` itself never upcases). -/
def pyUpper (s : String) : String := ⟨s.data.map Char.toUpper⟩

/-- Endpoint `POST /register` (`app.py` lines 70-108).  `uid` is the generated
`uuid.uuid4()`, `hashed` the werkzeug password hash; both come from the
environment.  A unique-constraint hit (`users.id`, `users.username`, or a
non-NULL duplicate `users.rollno`) raises `sqlite3.IntegrityError`,
answered with 409 and no insert. -/
def register (st : DBState) (uid hashed : String)
    (name username password role rollno class_id semester : Option String) :
    Resp × DBState :=
  if !(truthy name && truthy username && truthy password && truthy role
        && truthy class_id) then
    (⟨400, [("error", "Missing required fields: name, username, password, role, class_id")]⟩, st)
  else if !(role == some "admin" || role == some "student") then
    (⟨400, [("error", "Invalid role specified")]⟩, st)
  else if role == some "student" && !(truthy rollno && truthy semester) then
    (⟨400, [("error", "Students must provide a Roll Number and Semester")]⟩, st)
  else
    match name, username, class_id with
    | some nm, some un, some cid =>
      let row : UserRow :=
        if role == some "student" then
          ⟨uid, nm, un, hashed, "student", rollno, cid, semester⟩
        else
          ⟨uid, nm, un, hashed, "admin", none, cid, none⟩
      if st.users.any (fun u => u.id == uid || u.username == un
            || (row.rollno.isSome && u.rollno == row.rollno)) then
        (⟨409, [("error", "Username or Roll Number already exists.")]⟩, st)
      else
        (⟨201, [("message", (if role == some "student" then "Student" else "Admin")
                  ++ " registration successful. You can now login."),
                ("user_id", uid)]⟩,
         ⟨st.users ++ [row], st.sessions, st.attendance, st.nextId⟩)
    | _, _, _ =>
      (⟨400, [("error", "Missing required fields: name, username, password, role, class_id")]⟩, st)

/-- Endpoint `POST /admin/create_session` (`app.py` lines 144-182).  `tok` is the
generated `str(uuid.uuid4())[:8].upper()`; `d` is the strptime outcome on
the `date` field, carrying on success the timestamp
`datetime.combine(session_date, now).timestamp()`.  An insert that hits
the `sessions.qr_token` primary key raises, caught as a 500 with no
insert. -/
def create_session (st : DBState) (tok : String)
    (class_name class_code class_id : Option String)
    (d : Option (ParseOutcome Int)) : Resp × DBState :=
  match class_name, class_code, class_id, d with
  | some cn, some cc, some cid, some pd =>
    if cn == "" || cc == "" || cid == "" then
      (⟨400, [("error", "Missing required fields")]⟩, st)
    else
      match pd with
      | .invalid => (⟨400, [("error", "Invalid date format")]⟩, st)
      | .ok ts =>
        if st.sessions.any (fun s => s.qr_token == tok) then
          (⟨500, [("error", "Database error: UNIQUE constraint failed: sessions.qr_token")]⟩, st)
        else
          (⟨201, [("qr_token", tok), ("class_name", cn), ("class_code", cc)]⟩,
           ⟨st.users, st.sessions ++ [⟨tok, cn, cc, ts, cid⟩], st.attendance, st.nextId⟩)
  | _, _, _, _ => (⟨400, [("error", "Missing required fields")]⟩, st)

/-- Endpoint `POST /admin/update_attendance` (`app.py` lines 276-291).  The
record id is JSON, modelled as `Option Int` (`0` is falsy in Python).
The UPDATE runs unconditionally and its rowcount is never inspected, so
the handler answers 200 whether or not a row with that id exists. -/
def update_attendance (st : DBState) (record_id : Option Int)
    (status : Option String) : Resp × DBState :=
  match record_id, status with
  | some rid, some stt =>
    if rid == 0 || stt == "" || !(stt == "Present" || stt == "Absent") then
      (⟨400, [("error", "Invalid record ID or status")]⟩, st)
    else
      (⟨200, [("message", "Record " ++ toString rid ++ " updated to " ++ stt ++ ".")]⟩,
       ⟨st.users, st.sessions,
        st.attendance.map (fun a =>
          if (a.id : Int) == rid then ⟨a.id, a.student_id, a.qr_token, stt, a.timestamp⟩ else a),
        st.nextId⟩)
  | _, _ => (⟨400, [("error", "Invalid record ID or status")]⟩, st)

/-- Endpoint `POST /admin/delete_student` (`app.py` lines 293-321).  Attendance
rows for the id are deleted first, then the user row (restricted to
`role = 'student'`), then `commit()`; only after the commit is the user
delete's rowcount inspected, so the 404 branch returns with the
attendance rows already gone. -/
def delete_student (st : DBState) (student_id : Option String) :
    Resp × DBState :=
  match student_id with
  | some sid =>
    if sid == "" then (⟨400, [("error", "Missing student ID")]⟩, st)
    else
      let att' := st.attendance.filter (fun a => !(a.student_id == sid))
      let users' := st.users.filter (fun u => !(u.id == sid && u.role == "student"))
      let deleted := (st.users.filter (fun u => u.id == sid && u.role == "student")).length
      let st' : DBState := ⟨users', st.sessions, att', st.nextId⟩
      if deleted == 0 then (⟨404, [("error", "Student not found.")]⟩, st')
      else (⟨200, [("message", "Student deleted successfully")]⟩, st')
  | none => (⟨400, [("error", "Missing student ID")]⟩, st)

/-- Endpoint `POST /student/mark_attendance` (`app.py` lines 325-357).  `ts` is
`time.time()`.  The token is looked up by plain SQL equality — no strip,
no upper-casing.  Any pre-existing row for (student_id, qr_token),
whatever its status, short-circuits into the 400 "already marked" error
with no write. -/
def mark_attendance (st : DBState) (student_id qr_token : String)
    (ts : Int) : Resp × DBState :=
  match st.sessions.find? (fun s => s.qr_token == qr_token) with
  | none => (⟨400, [("error", "Invalid or expired QR code/session.")]⟩, st)
  | some srow =>
    match st.attendance.find? (fun a => a.student_id == student_id && a.qr_token == qr_token) with
    | some _ => (⟨400, [("error", "Attendance already marked for this session.")]⟩, st)
    | none =>
      (⟨200, [("message", "Attendance marked for " ++ srow.class_code ++ ": "
                ++ srow.class_name ++ "."),
              ("status", "Present")]⟩,
       ⟨st.users, st.sessions,
        st.attendance ++ [⟨st.nextId, student_id, qr_token, "Present", ts⟩],
        st.nextId + 1⟩)

/-- Output of the endpoint `GET /student/stats/<student_id>` (`app.py` lines 359-394). -/
inductive StatsOut where
  | err (code : Nat) (error : String)
  | ok (code : Nat) (total_classes attended : Nat) (missed : Int) (percentage : ℚ)
deriving DecidableEq, Repr

def student_stats (st : DBState) (student_id : String) : StatsOut :=
  match st.users.find? (fun u => u.id == student_id) with
  | none => .err 404 "Student not found."
  | some u =>
    let cid := u.class_id
    let total := sqlCountSessions st.sessions cid
    let attended := sqlJoinCount st.attendance st.sessions
      (fun a => a.student_id == student_id && a.status == "Present")
      (fun s => s.class_id == cid)
    let percentage : ℚ := if total > 0 then (attended : ℚ) / (total : ℚ) * 100 else 0
    .ok 200 total attended ((total : Int) - (attended : Int)) (pyRound1 percentage)

/-- One entry of the admin roster statistics list. -/
structure StatEntry where
  id : String
  name : String
  rollno : Option String
  attended : Nat
  total : Nat
  percentage : ℚ
deriving DecidableEq, Repr

/-- One row of the admin detailed-records list (attendance joined with
users and sessions). -/
structure RecordEntry where
  id : Nat
  student_id : String
  qr_token : String
  status : String
  timestamp : Int
  student_name : String
  roll_no : Option String
  class_name : String
  class_code : String
deriving DecidableEq, Repr

/-- Output of `POST /admin/attendance`. -/
inductive AdminOut where
  | err (code : Nat) (error : String)
  | ok (code : Nat) (records : List RecordEntry) (stats : List StatEntry)
       (current_qr_token : Option String)
deriving DecidableEq, Repr

/-- The records join of `app.py` lines 249-262, before ORDER BY. -/
def recordsJoin (st : DBState) (cid : String) (dateOk : SessionRow → Bool) :
    List RecordEntry :=
  st.attendance.flatMap (fun a =>
    (st.users.filter (fun u => a.student_id == u.id)).flatMap (fun u =>
      (st.sessions.filter (fun s => a.qr_token == s.qr_token)).filterMap (fun s =>
        if s.class_id == cid && u.class_id == cid && dateOk s then
          some ⟨a.id, a.student_id, a.qr_token, a.status, a.timestamp,
                u.name, u.rollno, s.class_name, s.class_code⟩
        else none)))

/-- SQL `ORDER BY a.timestamp DESC` modelled as a stable insertion sort on
the timestamp, descending. -/
def insertTsDesc (r : RecordEntry) : List RecordEntry → List RecordEntry
  | [] => [r]
  | x :: xs => if x.timestamp < r.timestamp then r :: x :: xs else x :: insertTsDesc r xs

def sortTsDesc : List RecordEntry → List RecordEntry
  | [] => []
  | x :: xs => insertTsDesc x (sortTsDesc xs)

/-- SQL `SELECT qr_token FROM sessions WHERE class_id = ? ORDER BY timestamp
DESC LIMIT 1`: a session of the class with maximal timestamp. -/
def latestToken (sessions : List SessionRow) (cid : String) : Option String :=
  ((sessions.filter (fun s => s.class_id == cid)).foldl
    (fun acc s =>
      match acc with
      | none => some s
      | some b => if b.timestamp < s.timestamp then some s else some b)
    none).map (fun s => s.qr_token)

/-- Endpoint `POST /admin/attendance` (`app.py` lines 184-274).  `d` is the
strptime outcome on the optional `date` field, carrying on success the
`[start_of_day, end_of_day)` timestamps the Python code derives; note
the `except ValueError: pass` — an unparseable date leaves the filter
empty instead of answering 400. -/
def admin_attendance_data (st : DBState) (class_id : Option String)
    (d : Option (ParseOutcome (Int × Int))) : AdminOut :=
  match class_id with
  | none => .err 400 "Class ID is required."
  | some cid =>
    if cid == "" then .err 400 "Class ID is required."
    else
      let dateOk : SessionRow → Bool := fun s =>
        match d with
        | some (.ok se) => decide (se.1 ≤ s.timestamp) && decide (s.timestamp < se.2)
        | _ => true
      let students := st.users.filter (fun u => u.role == "student" && u.class_id == cid)
      let total := (st.sessions.filter (fun s => s.class_id == cid && dateOk s)).length
      let stats := students.map (fun u =>
        let attended := sqlJoinCount st.attendance st.sessions
          (fun a => a.student_id == u.id && a.status == "Present")
          (fun s => s.class_id == cid && dateOk s)
        let percentage : ℚ := if total > 0 then (attended : ℚ) / (total : ℚ) * 100 else 0
        ⟨u.id, u.name, u.rollno, attended, total, pyRound1 percentage⟩)
      .ok 200 (sortTsDesc (recordsJoin st cid dateOk)) stats (latestToken st.sessions cid)

/-! ## Operation traces

One constructor per state-changing endpoint, carrying the request inputs
and the environment-chosen values; `applyOp` runs the endpoint and keeps
the resulting state. -/

inductive Op where
  | opRegister (uid hashed : String)
      (name username password role rollno class_id semester : Option String)
  | opCreateSession (tok : String)
      (class_name class_code class_id : Option String) (d : Option (ParseOutcome Int))
  | opMarkAttendance (student_id qr_token : String) (ts : Int)
  | opUpdateAttendance (record_id : Option Int) (status : Option String)
  | opDeleteStudent (student_id : Option String)

def applyOp (st : DBState) : Op → DBState
  | .opRegister uid hashed nm un pw ro rn cid sem =>
      (register st uid hashed nm un pw ro rn cid sem).2
  | .opCreateSession tok cn cc cid d => (create_session st tok cn cc cid d).2
  | .opMarkAttendance sid tok ts => (mark_attendance st sid tok ts).2
  | .opUpdateAttendance rid stt => (update_attendance st rid stt).2
  | .opDeleteStudent sid => (delete_student st sid).2

def runOps (st : DBState) (ops : List Op) : DBState := ops.foldl applyOp st

/-- The (student, session) key of an attendance row. -/
def pairKey (a : AttendanceRow) : String × String := (a.student_id, a.qr_token)

/-- The code's "check then insert" discipline keeps at most one attendance
row per (student, session) pair. -/
def InvPairs (st : DBState) : Prop := (st.attendance.map pairKey).Nodup

/-! ## Concrete fixtures for witnesses and counterexamples -/

/-- A session stored with the (uppercase) token the spec's example uses. -/
def sessAB : SessionRow := ⟨"AB12CD34", "Math", "M101", 10, "C1"⟩

/-- A state holding exactly that session. -/
def stSess : DBState := ⟨[], [sessAB], [], 1⟩

/-- A registered student of class C1. -/
def uS1 : UserRow := ⟨"S1", "Alice", "alice", "h1", "student", some "R1", "C1", some "5"⟩

/-- A state with one student, one session of the student's class and one
Present attendance row for the pair. -/
def stStats : DBState := ⟨[uS1], [sessAB], [⟨1, "S1", "AB12CD34", "Present", 12⟩], 2⟩

/-- A state whose attendance row for (S1, AB12CD34) has status Absent. -/
def stAbsent : DBState := ⟨[uS1], [sessAB], [⟨1, "S1", "AB12CD34", "Absent", 12⟩], 2⟩

/-- Trace used to exercise C6: register a student, create a session of
the student's class, mark attendance. -/
def opsW : List Op :=
  [Op.opRegister "S1" "h1" (some "Alice") (some "alice") (some "pw") (some "student")
     (some "R1") (some "C1") (some "5"),
   Op.opCreateSession "AB12CD34" (some "Math") (some "M101") (some "C1") (some (.ok 10)),
   Op.opMarkAttendance "S1" "AB12CD34" 5]


/-! ## Counting lemmas for attended ≤ total -/

theorem sum_map_zero {α : Type} (A : List α) : (A.map (fun _ => (0 : Nat))).sum = 0 := by
  induction A with
  | nil => rfl
  | cons a l ih => simp [ih]

theorem sum_map_add {α : Type} (A : List α) (f g : α → Nat) :
    (A.map (fun a => f a + g a)).sum = (A.map f).sum + (A.map g).sum := by
  induction A with
  | nil => rfl
  | cons a l ih => simp [ih]; omega

theorem sum_map_ite_eq_countP {α : Type} (A : List α) (p : α → Bool) :
    (A.map (fun a => if p a then 1 else 0)).sum = A.countP p := by
  induction A with
  | nil => rfl
  | cons a l ih =>
    simp only [List.map_cons, List.sum_cons, List.countP_cons, ih]
    exact Nat.add_comm _ _

theorem sqlJoinCount_eq_sum (att : List AttendanceRow) (sess : List SessionRow)
    (P : AttendanceRow → Bool) (Q : SessionRow → Bool) :
    sqlJoinCount att sess P Q =
      (att.map (fun a =>
        (sess.filter (fun s => a.qr_token == s.qr_token && P a && Q s)).length)).sum := by
  unfold sqlJoinCount
  rw [List.flatMap_def, List.length_flatten, List.map_map]
  rfl

theorem sum_pull_filter (att : List AttendanceRow) (sess : List SessionRow)
    (P : AttendanceRow → Bool) (Q : SessionRow → Bool) :
    (att.map (fun a =>
      (sess.filter (fun s => a.qr_token == s.qr_token && P a && Q s)).length)).sum =
    ((att.filter P).map (fun a =>
      (sess.filter (fun s => a.qr_token == s.qr_token && Q s)).length)).sum := by
  induction att with
  | nil => rfl
  | cons a l ih =>
    by_cases h : P a
    · simp [List.filter_cons, h, ih]
    · simp [List.filter_cons, h, ih]

theorem sum_le_filterQ (A : List AttendanceRow) (sess : List SessionRow)
    (Q : SessionRow → Bool)
    (hA : (A.map (fun a => a.qr_token)).Nodup) :
    (A.map (fun a =>
      (sess.filter (fun s => a.qr_token == s.qr_token && Q s)).length)).sum ≤
    (sess.filter Q).length := by
  induction sess with
  | nil => simp [sum_map_zero]
  | cons s sess' ih =>
    have hsplit : ∀ a : AttendanceRow,
        (((s :: sess').filter (fun t => a.qr_token == t.qr_token && Q t)).length) =
        (if (a.qr_token == s.qr_token && Q s) then 1 else 0) +
          ((sess'.filter (fun t => a.qr_token == t.qr_token && Q t)).length) := by
      intro a
      by_cases h : (a.qr_token == s.qr_token && Q s)
      · simp [List.filter_cons, h]
        omega
      · simp [List.filter_cons, h]
    calc (A.map (fun a =>
            (((s :: sess').filter (fun t => a.qr_token == t.qr_token && Q t)).length))).sum
        = (A.map (fun a => (if (a.qr_token == s.qr_token && Q s) then 1 else 0) +
            ((sess'.filter (fun t => a.qr_token == t.qr_token && Q t)).length))).sum := by
          exact congrArg List.sum (List.map_congr_left (fun a _ => hsplit a))
      _ = (A.map (fun a => if (a.qr_token == s.qr_token && Q s) then 1 else 0)).sum +
            (A.map (fun a =>
              (sess'.filter (fun t => a.qr_token == t.qr_token && Q t)).length)).sum :=
          sum_map_add A _ _
      _ ≤ (if Q s then 1 else 0) + ((sess'.filter Q).length) := by
          apply Nat.add_le_add _ ih
          rw [sum_map_ite_eq_countP]
          by_cases hQ : Q s
          · simp only [hQ, if_true, Bool.and_true]
            have hc : A.countP (fun a => a.qr_token == s.qr_token) =
                (A.map (fun a => a.qr_token)).count s.qr_token := by
              rw [List.count_eq_countP, List.countP_map]
              rfl
            rw [hc]
            exact List.nodup_iff_count_le_one.mp hA s.qr_token
          · simp only [hQ, Bool.and_false]
            simp
      _ = ((s :: sess').filter Q).length := by
          by_cases hQ : Q s
          · simp [List.filter_cons, hQ]
            omega
          · simp [List.filter_cons, hQ]

/-- Core bound: if no two attendance rows fed to the join share a token,
the join is at most as long as the session filter. -/
theorem sqlJoinCount_le (att : List AttendanceRow) (sess : List SessionRow)
    (P : AttendanceRow → Bool) (Q : SessionRow → Bool)
    (h : ((att.filter P).map (fun a => a.qr_token)).Nodup) :
    sqlJoinCount att sess P Q ≤ (sess.filter Q).length := by
  rw [sqlJoinCount_eq_sum, sum_pull_filter]
  exact sum_le_filterQ _ _ _ h

/-! ## The at-most-one-row-per-pair invariant is preserved by every
operation -/

theorem register_attendance (st : DBState) (uid hashed : String)
    (nm un pw ro rn cid sem : Option String) :
    ((register st uid hashed nm un pw ro rn cid sem).2).attendance = st.attendance := by
  unfold register
  repeat' split
  all_goals try rfl
  all_goals dsimp only
  all_goals split
  all_goals rfl

theorem create_session_attendance (st : DBState) (tok : String)
    (cn cc cid : Option String) (d : Option (ParseOutcome Int)) :
    ((create_session st tok cn cc cid d).2).attendance = st.attendance := by
  unfold create_session
  repeat' split
  all_goals rfl

theorem invPairs_mark (st : DBState) (sid tok : String) (ts : Int)
    (h : InvPairs st) : InvPairs ((mark_attendance st sid tok ts).2) := by
  unfold mark_attendance
  split
  · exact h
  · split
    · exact h
    · rename_i srow hs hrow
      unfold InvPairs at h ⊢
      simp only [List.map_append, List.map_cons, List.map_nil]
      rw [List.nodup_append]
      refine ⟨h, List.nodup_singleton _, ?_⟩
      intro x hx hy
      simp only [List.mem_singleton] at hy
      subst hy
      simp only [List.mem_map] at hx
      obtain ⟨a, ha, hpk⟩ := hx
      rw [List.find?_eq_none] at hrow
      have hna := hrow a ha
      simp only [Bool.and_eq_true, beq_iff_eq, not_and] at hna
      have h1 : a.student_id = sid := congrArg Prod.fst hpk
      have h2 : a.qr_token = tok := congrArg Prod.snd hpk
      exact hna h1 h2

theorem invPairs_update (st : DBState) (rid : Option Int) (stt : Option String)
    (h : InvPairs st) : InvPairs ((update_attendance st rid stt).2) := by
  unfold update_attendance
  split
  · rename_i r s
    split
    · exact h
    · unfold InvPairs at h ⊢
      simp only [List.map_map]
      have hmap : st.attendance.map (pairKey ∘ (fun a : AttendanceRow =>
          if (a.id : Int) == r then ⟨a.id, a.student_id, a.qr_token, s, a.timestamp⟩ else a))
          = st.attendance.map pairKey :=
        List.map_congr_left (fun a _ => by
          by_cases hid : (a.id : Int) = r <;> simp [pairKey, hid])
      rw [hmap]
      exact h
  · exact h

theorem invPairs_delete (st : DBState) (sid : Option String)
    (h : InvPairs st) : InvPairs ((delete_student st sid).2) := by
  unfold delete_student
  have hsub : ∀ p : AttendanceRow → Bool,
      ((st.attendance.filter p).map pairKey).Nodup :=
    fun p => h.sublist ((List.filter_sublist st.attendance).map pairKey)
  split
  · split
    · exact h
    · dsimp only
      split
      · exact hsub _
      · exact hsub _
  · exact h

theorem invPairs_applyOp (st : DBState) (op : Op) (h : InvPairs st) :
    InvPairs (applyOp st op) := by
  cases op with
  | opRegister uid hashed nm un pw ro rn cid sem =>
    unfold applyOp InvPairs
    rw [register_attendance]
    exact h
  | opCreateSession tok cn cc cid d =>
    unfold applyOp InvPairs
    rw [create_session_attendance]
    exact h
  | opMarkAttendance sid tok ts => exact invPairs_mark st sid tok ts h
  | opUpdateAttendance rid stt => exact invPairs_update st rid stt h
  | opDeleteStudent sid => exact invPairs_delete st sid h

theorem invPairs_runOps (ops : List Op) :
    ∀ st : DBState, InvPairs st → InvPairs (runOps st ops) := by
  induction ops with
  | nil => exact fun st h => h
  | cons op ops ih =>
    intro st h
    exact ih (applyOp st op) (invPairs_applyOp st op h)

theorem invPairs_empty : InvPairs dbEmpty := List.nodup_nil

/-- Attendance rows of one student have pairwise distinct tokens. -/
theorem tokens_nodup (st : DBState) (h : InvPairs st)
    (P : AttendanceRow → Bool) (sid : String)
    (hP : ∀ a, P a = true → a.student_id = sid) :
    ((st.attendance.filter P).map (fun a => a.qr_token)).Nodup := by
  have hsub : ((st.attendance.filter P).map pairKey).Nodup :=
    h.sublist ((List.filter_sublist st.attendance).map pairKey)
  have hevery : ∀ x ∈ (st.attendance.filter P).map pairKey, x.1 = sid := by
    intro x hx
    simp only [List.mem_map] at hx
    obtain ⟨a, ha, hpk⟩ := hx
    have haP := List.of_mem_filter ha
    rw [← hpk]
    exact hP a haP
  have hmm : (st.attendance.filter P).map (fun a => a.qr_token)
      = ((st.attendance.filter P).map pairKey).map Prod.snd := by
    rw [List.map_map]
    rfl
  rw [hmm]
  apply hsub.map_on
  intro x hx y hy hxy
  have hx1 := hevery x hx
  have hy1 := hevery y hy
  cases x
  cases y
  simp only at hx1 hy1 hxy
  simp [hx1, hy1, hxy]

theorem pyRound1_zero : pyRound1 0 = 0 := by
  norm_num [pyRound1, roundHalfEven]

theorem countP_le_one_of_nodup {α : Type} (l : List α) (p : α → Bool) (v : α)
    (hp : ∀ x, p x = true → x = v) (h : l.Nodup) : l.countP p ≤ 1 := by
  induction l with
  | nil => simp
  | cons a l ih =>
    rcases List.nodup_cons.mp h with ⟨hna, hl⟩
    rw [List.countP_cons]
    by_cases hpa : p a
    · have hav := hp a hpa
      have hz : l.countP p = 0 := by
        rw [List.countP_eq_zero]
        intro x hx hpx
        apply hna
        rw [hav, ← hp x hpx]
        exact hx
      simp [hz, hpa]
    · have h0 : (if p a = true then 1 else 0) = 0 := by simp [hpa]
      rw [h0]
      simpa using ih hl

/-- With the invariant, at most one attendance row carries a given
(student, session) pair. -/
theorem filter_pair_le_one (st : DBState) (h : InvPairs st) (sid tok : String) :
    (st.attendance.filter
      (fun a => a.student_id == sid && a.qr_token == tok)).length ≤ 1 := by
  rw [← List.countP_eq_length_filter]
  have h1 : st.attendance.countP (fun a => a.student_id == sid && a.qr_token == tok)
      = (st.attendance.map pairKey).countP (fun x => x.1 == sid && x.2 == tok) := by
    rw [List.countP_map]
    rfl
  rw [h1]
  apply countP_le_one_of_nodup _ _ (sid, tok) _ h
  intro x hx
  simp only [Bool.and_eq_true, beq_iff_eq] at hx
  exact Prod.ext hx.1 hx.2

/-! ## Claims -/

/-- C7: for every token value matching no stored session, mark_attendance
answers the 400 invalid-or-expired error and leaves the state (in
particular the attendance table) unchanged. -/
theorem C7_nonexistent_token_fails (st : DBState) (sid tok : String) (ts : Int)
    (h : ∀ s ∈ st.sessions, s.qr_token ≠ tok) :
    mark_attendance st sid tok ts =
      (⟨400, [("error", "Invalid or expired QR code/session.")]⟩, st) := by
  have hf : st.sessions.find? (fun s => s.qr_token == tok) = none := by
    rw [List.find?_eq_none]
    intro s hs
    simp only [beq_iff_eq]
    exact h s hs
  unfold mark_attendance
  rw [hf]

theorem C7_witness :
    mark_attendance dbEmpty "S1" "NOPE" 0 =
      (⟨400, [("error", "Invalid or expired QR code/session.")]⟩, dbEmpty) :=
  C7_nonexistent_token_fails dbEmpty "S1" "NOPE" 0 (by simp [dbEmpty])

/-- C8: mark_attendance never checks the users table: even when no user
row carries the submitted student_id, a fresh pair with a stored token is
inserted as Present and the call answers 200. -/
theorem C8_no_student_validation (st : DBState) (sid tok : String) (ts : Int)
    (hnouser : ∀ u ∈ st.users, u.id ≠ sid)
    (hsess : ∃ s ∈ st.sessions, s.qr_token = tok)
    (hfresh : ∀ a ∈ st.attendance, ¬(a.student_id = sid ∧ a.qr_token = tok)) :
    (mark_attendance st sid tok ts).1.code = 200 ∧
    (mark_attendance st sid tok ts).2.attendance
      = st.attendance ++ [⟨st.nextId, sid, tok, "Present", ts⟩] := by
  obtain ⟨s0, hs0, htok⟩ := hsess
  have hfind : (st.sessions.find? (fun s => s.qr_token == tok)).isSome := by
    rw [List.find?_isSome]
    exact ⟨s0, hs0, by simp [htok]⟩
  obtain ⟨srow, hsr⟩ := Option.isSome_iff_exists.mp hfind
  have hnone : st.attendance.find?
      (fun a => a.student_id == sid && a.qr_token == tok) = none := by
    rw [List.find?_eq_none]
    intro a ha
    simp only [Bool.and_eq_true, beq_iff_eq]
    exact fun hc => hfresh a ha ⟨hc.1, hc.2⟩
  unfold mark_attendance
  rw [hsr, hnone]
  exact ⟨rfl, rfl⟩

theorem C8_witness :
    (mark_attendance stSess "GHOST" "AB12CD34" 5).1.code = 200 ∧
    (mark_attendance stSess "GHOST" "AB12CD34" 5).2.attendance
      = stSess.attendance ++ [⟨stSess.nextId, "GHOST", "AB12CD34", "Present", 5⟩] :=
  C8_no_student_validation stSess "GHOST" "AB12CD34" 5
    (by simp [stSess]) (by exact ⟨sessAB, by simp [stSess], rfl⟩) (by simp [stSess])

/-- C9: an unparseable date string on /admin/attendance is swallowed
(`except ValueError: pass`): the query runs with no date filter and the
endpoint answers 200 with the unfiltered records and statistics, exactly
as if no date had been sent — while /admin/create_session answers 400
"Invalid date format" for the same unparseable date. -/
theorem C9_invalid_date_swallowed (st : DBState) (cid : String) (hcid : cid ≠ "")
    (tok cn cc cid2 : String) (hcn : cn ≠ "") (hcc : cc ≠ "") (hcid2 : cid2 ≠ "") :
    admin_attendance_data st (some cid) (some .invalid)
        = admin_attendance_data st (some cid) none
    ∧ (∃ recs stats ctok,
        admin_attendance_data st (some cid) (some .invalid) = .ok 200 recs stats ctok)
    ∧ create_session st tok (some cn) (some cc) (some cid2) (some .invalid)
        = (⟨400, [("error", "Invalid date format")]⟩, st) := by
  have h1 : (cid == "") = false := by simp [hcid]
  refine ⟨rfl, ?_, ?_⟩
  · simp only [admin_attendance_data, h1, Bool.false_eq_true, if_false]
    exact ⟨_, _, _, rfl⟩
  · have h2 : (cn == "" || cc == "" || cid2 == "") = false := by
      simp [hcn, hcc, hcid2]
    simp only [create_session, h2, Bool.false_eq_true, if_false]

theorem C9_witness :
    admin_attendance_data stSess (some "C1") (some .invalid)
        = admin_attendance_data stSess (some "C1") none
    ∧ (∃ recs stats ctok,
        admin_attendance_data stSess (some "C1") (some .invalid) = .ok 200 recs stats ctok)
    ∧ create_session stSess "ZZ99YY88" (some "Phys") (some "P1") (some "C2") (some .invalid)
        = (⟨400, [("error", "Invalid date format")]⟩, stSess) :=
  C9_invalid_date_swallowed stSess "C1" (by decide) "ZZ99YY88" "Phys" "P1" "C2"
    (by decide) (by decide) (by decide)

/-- C10: when the given id matches no student user, delete_student
answers 404 — but the attendance rows carrying that student_id have
already been deleted and committed, so the stored state is not the one
the call started from. -/
theorem C10_notfound_still_deletes (st : DBState) (sid : String) (hne : sid ≠ "")
    (hnostu : ∀ u ∈ st.users, ¬(u.id = sid ∧ u.role = "student")) :
    delete_student st (some sid) =
      (⟨404, [("error", "Student not found.")]⟩,
       ⟨st.users, st.sessions,
        st.attendance.filter (fun a => !(a.student_id == sid)), st.nextId⟩) := by
  have h1 : (sid == "") = false := by simp [hne]
  have h2 : st.users.filter (fun u => u.id == sid && u.role == "student") = [] := by
    rw [List.filter_eq_nil_iff]
    intro u hu
    simp only [Bool.and_eq_true, beq_iff_eq]
    exact fun hc => hnostu u hu ⟨hc.1, hc.2⟩
  have h3 : st.users.filter (fun u => !(u.id == sid && u.role == "student")) = st.users := by
    rw [List.filter_eq_self]
    intro u hu
    simp only [Bool.not_eq_true', Bool.and_eq_false_iff]
    by_cases hid : u.id = sid
    · right
      have := hnostu u hu
      simp only [hid, true_and] at this
      simp [this]
    · left
      simp [hid]
  simp only [delete_student, h1, Bool.false_eq_true, if_false, h2, h3,
    List.length_nil]
  norm_num

theorem C10_witness :
    delete_student stSess (some "S9") =
      (⟨404, [("error", "Student not found.")]⟩,
       ⟨stSess.users, stSess.sessions,
        stSess.attendance.filter (fun a => !(a.student_id == "S9")), stSess.nextId⟩) :=
  C10_notfound_still_deletes stSess "S9" (by decide) (by simp [stSess])

/-- C5: the per-student statistics endpoint answers 200 with total the
number of Session rows of the student's class identifier, attended the
join count of the student's Present rows against those sessions,
missed = total − attended, and percentage the one-decimal rounding of
attended/total×100, which is 0 when total is 0. -/
theorem C5_student_stats (st : DBState) (sid : String) (u : UserRow)
    (hu : st.users.find? (fun v => v.id == sid) = some u) :
    student_stats st sid =
      .ok 200
        ((st.sessions.filter (fun s => s.class_id == u.class_id)).length)
        (sqlJoinCount st.attendance st.sessions
          (fun a => a.student_id == sid && a.status == "Present")
          (fun s => s.class_id == u.class_id))
        (((st.sessions.filter (fun s => s.class_id == u.class_id)).length : Int)
          - (sqlJoinCount st.attendance st.sessions
              (fun a => a.student_id == sid && a.status == "Present")
              (fun s => s.class_id == u.class_id) : Int))
        (if 0 < (st.sessions.filter (fun s => s.class_id == u.class_id)).length
         then pyRound1 ((sqlJoinCount st.attendance st.sessions
              (fun a => a.student_id == sid && a.status == "Present")
              (fun s => s.class_id == u.class_id) : ℚ)
            / ((st.sessions.filter (fun s => s.class_id == u.class_id)).length : ℚ) * 100)
         else 0) := by
  unfold student_stats sqlCountSessions
  rw [hu]
  by_cases h0 : 0 < (st.sessions.filter (fun s => s.class_id == u.class_id)).length
  · simp only [h0, if_true, gt_iff_lt]
  · simp only [h0, if_false, gt_iff_lt, pyRound1_zero]

theorem C5_witness : student_stats stStats "S1" = .ok 200 1 1 0 100 := by
  have h := C5_student_stats stStats "S1" uS1 (by decide)
  rw [h]
  norm_num [stStats, uS1, sessAB, sqlJoinCount, pyRound1, roundHalfEven]

/-- C2 counterexample: the session is stored with token AB12CD34, and the
submitted token " ab12cd34 " normalizes to it (strip + upper), yet the
call fails with the invalid-code 400 and stores nothing — the claimed
case-insensitive, whitespace-trimmed lookup does not exist. -/
theorem C2_counterexample :
    pyUpper (pyStrip " ab12cd34 ") = "AB12CD34"
    ∧ mark_attendance stSess "S1" " ab12cd34 " 5
        = (⟨400, [("error", "Invalid or expired QR code/session.")]⟩, stSess) := by
  constructor
  · rfl
  · decide

/-- C2 amended: mark_attendance looks the token up by exact string
equality with no trimming or upper-casing: a submitted token that merely
normalizes (strip + uppercase) to a stored token T but is not itself a
stored token fails with the 400 invalid-code error and the state is
unchanged. -/
theorem C2_amended_exact_match (st : DBState) (sid t T : String) (ts : Int)
    (hT : ∃ s ∈ st.sessions, s.qr_token = T)
    (hnorm : pyUpper (pyStrip t) = T) (hne : t ≠ T)
    (habs : ∀ s ∈ st.sessions, s.qr_token ≠ t) :
    mark_attendance st sid t ts =
      (⟨400, [("error", "Invalid or expired QR code/session.")]⟩, st) := by
  have hf : st.sessions.find? (fun s => s.qr_token == t) = none := by
    rw [List.find?_eq_none]
    intro s hs
    simp only [beq_iff_eq]
    exact habs s hs
  unfold mark_attendance
  rw [hf]

theorem C2_amended_witness :
    mark_attendance stSess "S1" " ab12cd34 " 7 =
      (⟨400, [("error", "Invalid or expired QR code/session.")]⟩, stSess) :=
  C2_amended_exact_match stSess "S1" " ab12cd34 " "AB12CD34" 7
    (by exact ⟨sessAB, by simp [stSess], rfl⟩) (by rfl) (by decide) (by decide)

/-- C3 counterexample: the stored row for (S1, AB12CD34) has status
Absent; the mark_attendance call neither flips it to Present nor
refreshes its timestamp — it answers the 400 already-marked error and
the state (row still Absent, timestamp still 12) is unchanged. -/
theorem C3_counterexample :
    (mark_attendance stAbsent "S1" "AB12CD34" 99).1
        = ⟨400, [("error", "Attendance already marked for this session.")]⟩
    ∧ (mark_attendance stAbsent "S1" "AB12CD34" 99).2 = stAbsent
    ∧ (mark_attendance stAbsent "S1" "AB12CD34" 99).2.attendance
        = [⟨1, "S1", "AB12CD34", "Absent", 12⟩] := by
  decide

/-- C3 amended: for a pair that already has an attendance row —
whatever its status, Absent included — mark_attendance answers the 400
already-marked error and leaves the stored state (the row's status and
timestamp included) unchanged. -/
theorem C3_amended_absent_not_flipped (st : DBState) (sid tok : String) (ts : Int)
    (hsess : ∃ s ∈ st.sessions, s.qr_token = tok)
    (hrow : ∃ a ∈ st.attendance, a.student_id = sid ∧ a.qr_token = tok) :
    mark_attendance st sid tok ts =
      (⟨400, [("error", "Attendance already marked for this session.")]⟩, st) := by
  obtain ⟨s0, hs0, hts⟩ := hsess
  have hfind : (st.sessions.find? (fun s => s.qr_token == tok)).isSome := by
    rw [List.find?_isSome]
    exact ⟨s0, hs0, by simp [hts]⟩
  obtain ⟨srow, hsr⟩ := Option.isSome_iff_exists.mp hfind
  obtain ⟨a0, ha0, hp1, hp2⟩ := hrow
  have hfa : (st.attendance.find?
      (fun a => a.student_id == sid && a.qr_token == tok)).isSome := by
    rw [List.find?_isSome]
    exact ⟨a0, ha0, by simp [hp1, hp2]⟩
  obtain ⟨arow, har⟩ := Option.isSome_iff_exists.mp hfa
  unfold mark_attendance
  rw [hsr, har]

theorem C3_amended_witness :
    mark_attendance stAbsent "S1" "AB12CD34" 50 =
      (⟨400, [("error", "Attendance already marked for this session.")]⟩, stAbsent) :=
  C3_amended_absent_not_flipped stAbsent "S1" "AB12CD34" 50
    (by exact ⟨sessAB, by simp [stAbsent], rfl⟩)
    (by exact ⟨⟨1, "S1", "AB12CD34", "Absent", 12⟩, by simp [stAbsent], rfl, rfl⟩)

/-- C4 counterexample: on an empty attendance table, record id 1 exists
in no row, yet /admin/update_attendance answers 200 success, not the
claimed 404 NotFound. -/
theorem C4_counterexample :
    update_attendance dbEmpty (some 1) (some "Present")
        = (⟨200, [("message", "Record 1 updated to Present.")]⟩, dbEmpty)
    ∧ (update_attendance dbEmpty (some 1) (some "Present")).1.code ≠ 404 := by
  decide

/-- C4 amended: update_attendance answers 400 exactly when the inputs are
invalid (missing/zero record id, missing status, or a status outside
{Present, Absent}); for a valid status it answers 200 whether or not any
row has the given id — the UPDATE's rowcount is never inspected — and
every row whose id matches has its status overwritten. -/
theorem C4_amended_update_never_404 (st : DBState) (rid : Int) (stt : String)
    (hrid : rid ≠ 0) (hstt : stt = "Present" ∨ stt = "Absent") :
    update_attendance st (some rid) (some stt) =
      (⟨200, [("message", "Record " ++ toString rid ++ " updated to " ++ stt ++ ".")]⟩,
       ⟨st.users, st.sessions,
        st.attendance.map (fun a =>
          if (a.id : Int) == rid then ⟨a.id, a.student_id, a.qr_token, stt, a.timestamp⟩
          else a),
        st.nextId⟩)
    ∧ ∀ stt' : String, stt' ≠ "Present" → stt' ≠ "Absent" →
        update_attendance st (some rid) (some stt') =
          (⟨400, [("error", "Invalid record ID or status")]⟩, st) := by
  constructor
  · have hc : (rid == 0 || stt == "" || !(stt == "Present" || stt == "Absent")) = false := by
      rcases hstt with h | h <;> simp [h, hrid]
    simp only [update_attendance, hc, Bool.false_eq_true, if_false]
  · intro stt' h1 h2
    have hc : (rid == 0 || stt' == "" || !(stt' == "Present" || stt' == "Absent")) = true := by
      simp [h1, h2]
    simp only [update_attendance, hc, if_true]

theorem C4_amended_witness :
    update_attendance stStats (some 1) (some "Absent")
        = (⟨200, [("message", "Record 1 updated to Absent.")]⟩,
           ⟨stStats.users, stStats.sessions,
            [⟨1, "S1", "AB12CD34", "Absent", 12⟩], stStats.nextId⟩)
    ∧ update_attendance stStats (some 1) (some "Bogus")
        = (⟨400, [("error", "Invalid record ID or status")]⟩, stStats) := by
  constructor
  · rw [(C4_amended_update_never_404 stStats 1 "Absent" (by decide) (Or.inr rfl)).1]
    decide
  · exact (C4_amended_update_never_404 stStats 1 "Absent" (by decide) (Or.inr rfl)).2
      "Bogus" (by decide) (by decide)

/-- C1 counterexample: after a first successful mark, the second call for
the same pair answers the 400 "already marked" error — it is not a
success (200) response as the claim states. -/
theorem C1_counterexample :
    (mark_attendance (mark_attendance stSess "S1" "AB12CD34" 5).2 "S1" "AB12CD34" 6).1
        = ⟨400, [("error", "Attendance already marked for this session.")]⟩
    ∧ (mark_attendance (mark_attendance stSess "S1" "AB12CD34" 5).2 "S1" "AB12CD34" 6).1.code
        ≠ 200 := by
  decide

/-- C1 amended: over any state reachable from the empty database by the
API operations and containing the session, marking twice for the same
(student, token) pair leaves at most one attendance row for the pair,
the second call answers the 400 error response carrying the
already-marked message, and the state after the second call equals the
state after the first. -/
theorem C1_amended_one_row_second_errors (ops : List Op) (sid tok : String)
    (ts1 ts2 : Int)
    (hsess : ∃ s ∈ (runOps dbEmpty ops).sessions, s.qr_token = tok) :
    (mark_attendance (mark_attendance (runOps dbEmpty ops) sid tok ts1).2 sid tok ts2).2
        = (mark_attendance (runOps dbEmpty ops) sid tok ts1).2
    ∧ (mark_attendance (mark_attendance (runOps dbEmpty ops) sid tok ts1).2 sid tok ts2).1
        = ⟨400, [("error", "Attendance already marked for this session.")]⟩
    ∧ ((mark_attendance (mark_attendance (runOps dbEmpty ops) sid tok ts1).2
          sid tok ts2).2.attendance.filter
        (fun a => a.student_id == sid && a.qr_token == tok)).length ≤ 1 := by
  have hInv : InvPairs (runOps dbEmpty ops) := invPairs_runOps ops dbEmpty invPairs_empty
  obtain ⟨s0, hs0, hts⟩ := hsess
  have hfind : ((runOps dbEmpty ops).sessions.find? (fun s => s.qr_token == tok)).isSome := by
    rw [List.find?_isSome]
    exact ⟨s0, hs0, by simp [hts]⟩
  obtain ⟨srow, hsr⟩ := Option.isSome_iff_exists.mp hfind
  cases hae : (runOps dbEmpty ops).attendance.find?
      (fun a => a.student_id == sid && a.qr_token == tok) with
  | some a0 =>
    have h1 : mark_attendance (runOps dbEmpty ops) sid tok ts1 =
        (⟨400, [("error", "Attendance already marked for this session.")]⟩,
         runOps dbEmpty ops) := by
      unfold mark_attendance
      rw [hsr, hae]
    rw [h1]
    have h2 : mark_attendance (runOps dbEmpty ops) sid tok ts2 =
        (⟨400, [("error", "Attendance already marked for this session.")]⟩,
         runOps dbEmpty ops) := by
      unfold mark_attendance
      rw [hsr, hae]
    rw [h2]
    exact ⟨rfl, rfl, filter_pair_le_one _ hInv sid tok⟩
  | none =>
    have h1 : mark_attendance (runOps dbEmpty ops) sid tok ts1 =
        (⟨200, [("message", "Attendance marked for " ++ srow.class_code ++ ": "
                  ++ srow.class_name ++ "."), ("status", "Present")]⟩,
         ⟨(runOps dbEmpty ops).users, (runOps dbEmpty ops).sessions,
          (runOps dbEmpty ops).attendance
            ++ [⟨(runOps dbEmpty ops).nextId, sid, tok, "Present", ts1⟩],
          (runOps dbEmpty ops).nextId + 1⟩) := by
      unfold mark_attendance
      rw [hsr, hae]
    rw [h1]
    set nr : AttendanceRow :=
      ⟨(runOps dbEmpty ops).nextId, sid, tok, "Present", ts1⟩ with hnr
    have hpnr : (nr.student_id == sid && nr.qr_token == tok) = true := by
      rw [hnr]
      simp
    have hfa2 : ((runOps dbEmpty ops).attendance ++ [nr]).find?
        (fun a => a.student_id == sid && a.qr_token == tok) = some nr := by
      rw [List.find?_append, hae, Option.none_or]
      simp only [List.find?]
      rw [hpnr]
    have h2 : mark_attendance
        (⟨(runOps dbEmpty ops).users, (runOps dbEmpty ops).sessions,
          (runOps dbEmpty ops).attendance ++ [nr],
          (runOps dbEmpty ops).nextId + 1⟩ : DBState) sid tok ts2 =
        (⟨400, [("error", "Attendance already marked for this session.")]⟩,
         ⟨(runOps dbEmpty ops).users, (runOps dbEmpty ops).sessions,
          (runOps dbEmpty ops).attendance ++ [nr],
          (runOps dbEmpty ops).nextId + 1⟩) := by
      unfold mark_attendance
      dsimp only
      rw [hsr, hfa2]
    rw [h2]
    refine ⟨rfl, rfl, ?_⟩
    have hzero : (runOps dbEmpty ops).attendance.filter
        (fun a => a.student_id == sid && a.qr_token == tok) = [] := by
      rw [List.filter_eq_nil_iff]
      intro a ha
      have hne := List.find?_eq_none.mp hae a ha
      simpa using hne
    show ((((runOps dbEmpty ops).attendance ++ [nr]).filter
        (fun a => a.student_id == sid && a.qr_token == tok)).length) ≤ 1
    rw [List.filter_append, hzero]
    simp [List.filter_cons, hpnr]

theorem C1_amended_witness :
    (mark_attendance (mark_attendance (runOps dbEmpty
        [Op.opCreateSession "AB12CD34" (some "Math") (some "M101") (some "C1")
          (some (.ok 10))]) "S1" "AB12CD34" 5).2 "S1" "AB12CD34" 6).2
        = (mark_attendance (runOps dbEmpty
            [Op.opCreateSession "AB12CD34" (some "Math") (some "M101") (some "C1")
              (some (.ok 10))]) "S1" "AB12CD34" 5).2
    ∧ (mark_attendance (mark_attendance (runOps dbEmpty
          [Op.opCreateSession "AB12CD34" (some "Math") (some "M101") (some "C1")
            (some (.ok 10))]) "S1" "AB12CD34" 5).2 "S1" "AB12CD34" 6).1
        = ⟨400, [("error", "Attendance already marked for this session.")]⟩
    ∧ ((mark_attendance (mark_attendance (runOps dbEmpty
          [Op.opCreateSession "AB12CD34" (some "Math") (some "M101") (some "C1")
            (some (.ok 10))]) "S1" "AB12CD34" 5).2 "S1" "AB12CD34" 6).2.attendance.filter
        (fun a => a.student_id == "S1" && a.qr_token == "AB12CD34")).length ≤ 1 :=
  C1_amended_one_row_second_errors
    [Op.opCreateSession "AB12CD34" (some "Math") (some "M101") (some "C1")
      (some (.ok 10))] "S1" "AB12CD34" 5 6 (by decide)

/-- C6: starting from the empty database, after any sequence of API
operations every statistics result — the per-student endpoint and every
entry of the admin roster statistics — satisfies attended ≤ total. -/
theorem C6_attended_le_total (ops : List Op) :
    (∀ sid code total attended missed pct,
        student_stats (runOps dbEmpty ops) sid = .ok code total attended missed pct →
        attended ≤ total)
    ∧ (∀ cid d code recs stats ctok e,
        admin_attendance_data (runOps dbEmpty ops) cid d = .ok code recs stats ctok →
        e ∈ stats → e.attended ≤ e.total) := by
  have hInv : InvPairs (runOps dbEmpty ops) := invPairs_runOps ops dbEmpty invPairs_empty
  constructor
  · intro sid code total attended missed pct h
    cases hu : (runOps dbEmpty ops).users.find? (fun u => u.id == sid) with
    | none =>
      simp only [student_stats, hu] at h
      exact absurd h (by simp)
    | some u =>
      simp only [student_stats, hu, StatsOut.ok.injEq] at h
      obtain ⟨hcode, htot, hatt, hmiss, hpct⟩ := h
      subst htot hatt
      have htok : (((runOps dbEmpty ops).attendance.filter
          (fun a => a.student_id == sid && a.status == "Present")).map
          (fun a => a.qr_token)).Nodup := by
        apply tokens_nodup _ hInv _ sid
        intro a hPa
        simp only [Bool.and_eq_true, beq_iff_eq] at hPa
        exact hPa.1
      unfold sqlCountSessions
      exact sqlJoinCount_le _ _ _ _ htok
  · intro cid d code recs stats ctok e h he
    cases cid with
    | none =>
      simp only [admin_attendance_data] at h
      exact absurd h (by simp)
    | some c =>
      by_cases hc : (c == "") = true
      · simp [admin_attendance_data, hc] at h
      · simp only [admin_attendance_data, hc, Bool.false_eq_true, if_false,
          AdminOut.ok.injEq] at h
        obtain ⟨hcode, hrecs, hstats, hctok⟩ := h
        subst hstats
        rw [List.mem_map] at he
        obtain ⟨u, hu, hfu⟩ := he
        subst hfu
        dsimp only
        have htok : (((runOps dbEmpty ops).attendance.filter
            (fun a => a.student_id == u.id && a.status == "Present")).map
            (fun a => a.qr_token)).Nodup := by
          apply tokens_nodup _ hInv _ u.id
          intro a hPa
          simp only [Bool.and_eq_true, beq_iff_eq] at hPa
          exact hPa.1
        exact sqlJoinCount_le _ _ _ _ htok

theorem C6_witness :
    student_stats (runOps dbEmpty opsW) "S1" = .ok 200 1 1 0 100 ∧ (1 : Nat) ≤ 1 := by
  have hrun : runOps dbEmpty opsW =
      ⟨[⟨"S1", "Alice", "alice", "h1", "student", some "R1", "C1", some "5"⟩],
       [⟨"AB12CD34", "Math", "M101", 10, "C1"⟩],
       [⟨1, "S1", "AB12CD34", "Present", 5⟩], 2⟩ := by
    decide
  have hst : student_stats (runOps dbEmpty opsW) "S1" = .ok 200 1 1 0 100 := by
    rw [hrun]
    norm_num [student_stats, sqlCountSessions, sqlJoinCount, List.find?,
      pyRound1, roundHalfEven]
  exact ⟨hst, (C6_attended_le_total opsW).1 "S1" 200 1 1 0 100 hst⟩
